import Mathlib

/-!
Verification of the gorp repository's core subsystem (activity tracker,
pending-message queue, rate limiter) against its specification.

The embedding mirrors `src/services/lettaService.ts` (the `ActivityTracker`
and `RateLimiter` classes) and the message-event plumbing in the main entry
file.  Timestamps are modelled as `Int` milliseconds (JS `Date.now()`), text
as `List Char` (JS strings), and the two external effects — the downstream
`lettaService.processQuery` send and the attachment ingestion — are
parameterized: a flush takes a `sendOk : Bool` telling whether the awaited
downstream send succeeds or throws, and attachment ingestion is the
interface-level descriptor map of the spec.  The `await`-ed JS calls are
modelled as running to completion (single-threaded event-loop semantics);
floating-point size formatting inside digest text is modelled as exact
rational rounding, which no claim inspects.
-/

namespace Gorp

/-- Descriptor returned by the external attachment ingestion collaborator
(spec section 6: name, content type, payload-or-error); the payload itself is
irrelevant to the tracked state, so only the identifying fields are kept. -/
structure ImageData where
  name : List Char
  contentType : List Char
deriving DecidableEq

/-- A raw chat attachment handle as delivered by the platform client. -/
structure Attachment where
  name : List Char
  contentType : List Char
  size : Nat
  url : List Char
deriving DecidableEq

/-- An inbound chat message, with the fields the tracker reads:
`message.id`, `message.author.id`, `message.author.username`,
`message.channel.id`, `message.channel.name`, `message.content`,
`message.attachments`.  An empty `channelName` stands for a DM channel
(one without a `name` property). -/
structure Msg where
  id : List Char
  authorId : List Char
  username : List Char
  channelId : List Char
  channelName : List Char
  content : List Char
  attachments : List Attachment
deriving DecidableEq

/-- `PendingMessage` from lettaService.ts: formatted text plus the processed
image descriptors (`undefined` is modelled as the empty list). -/
structure PendingMessage where
  text : List Char
  images : List ImageData
deriving DecidableEq

/-- `ChannelActivity` from lettaService.ts, one record per channel. -/
structure ChannelActivity where
  channelId : List Char
  lastGorpMention : Int
  lastGorpMessage : Int
  lastActivity : Int
  pendingMessages : List PendingMessage
  isActive : Bool
deriving DecidableEq

/-- Timing configuration, already converted from minutes to milliseconds as
in the `ActivityTracker` constructor. -/
structure TrackerConfig where
  gorpInteractionTimeout : Int
  batchInterval : Int
deriving DecidableEq

/-! ## Rate limiter (`RateLimiter` class) -/

/-- Rate limiter state: recorded send timestamps plus the configured cap. -/
structure RateLimiter where
  messageTimestamps : List Int
  maxMessagesPerHour : Nat
deriving DecidableEq

/-- `windowMs = 60 * 60 * 1000`, one hour. -/
def windowMs : Int := 60 * 60 * 1000

/-- The lazy purge both queries perform: keep timestamps with
`now - timestamp < windowMs`. -/
def purgeOld (now : Int) (ts : List Int) : List Int :=
  ts.filter (fun t => now - t < windowMs)

/-- `canSendMessage()`: purge, then compare the count against the cap.  The
purge is a persistent side effect, so the updated state is returned too. -/
def canSendMessage (rl : RateLimiter) (now : Int) : Bool × RateLimiter :=
  let ts := purgeOld now rl.messageTimestamps
  (decide (ts.length < rl.maxMessagesPerHour), { rl with messageTimestamps := ts })

/-- `recordMessageSent()`: append "now". -/
def recordMessageSent (rl : RateLimiter) (now : Int) : RateLimiter :=
  { rl with messageTimestamps := rl.messageTimestamps ++ [now] }

/-- Result record of `getStatus()`. -/
structure RateStatus where
  messagesInWindow : Nat
  maxMessagesPerHour : Nat
  remainingMessages : Int
  resetTime : Int
deriving DecidableEq

/-- `getStatus()`: purge, then report count, `max(0, cap - count)`, and the
reset time (first retained timestamp plus the window, or "now" if none). -/
def getStatus (rl : RateLimiter) (now : Int) : RateStatus × RateLimiter :=
  let ts := purgeOld now rl.messageTimestamps
  let remaining : Int := max 0 ((rl.maxMessagesPerHour : Int) - (ts.length : Int))
  let resetTime : Int :=
    match ts with
    | [] => now
    | t :: _ => t + windowMs
  (⟨ts.length, rl.maxMessagesPerHour, remaining, resetTime⟩,
   { rl with messageTimestamps := ts })

/-- `getTimeUntilReset()`: minutes until the reset time,
`Math.max(0, Math.ceil((resetTime - now) / 60000))`.  For the positive
divisor 60000, `Math.ceil (a / b)` is `-((-a) ediv b)`. -/
def getTimeUntilReset (rl : RateLimiter) (now : Int) : Int :=
  let st := (getStatus rl now).1
  max 0 (-((-(st.resetTime - now)) / 60000))

/-- C2: with a cap of 3 and an empty limiter, three canSendMessage /
recordMessageSent cycles (at 0ms, 60s, 120s) all admit; a fourth
canSendMessage in the same hour (180s) denies; once the first timestamp ages
past 60 minutes the limiter admits again and remainingMessages rises from 0
to 1, i.e. by exactly one. -/
theorem c2_rate_limiter_window :
    (let rl0 : RateLimiter := { messageTimestamps := [], maxMessagesPerHour := 3 }
     let s1 := canSendMessage rl0 0
     let rl1 := recordMessageSent s1.2 0
     let s2 := canSendMessage rl1 60000
     let rl2 := recordMessageSent s2.2 60000
     let s3 := canSendMessage rl2 120000
     let rl3 := recordMessageSent s3.2 120000
     let s4 := canSendMessage rl3 180000
     let s5 := canSendMessage rl3 3600001
     s1.1 = true ∧ s2.1 = true ∧ s3.1 = true ∧
     s4.1 = false ∧ s5.1 = true ∧
     (getStatus rl3 180000).1.remainingMessages = 0 ∧
     (getStatus rl3 3600001).1.remainingMessages = 1 ∧
     (getStatus rl3 3600001).1.remainingMessages
       = (getStatus rl3 180000).1.remainingMessages + 1) := by
  decide

/-! ## Activity tracker (`ActivityTracker` class) -/

/-- A word character for the regex word boundary `\b`: `[A-Za-z0-9_]`. -/
def isWordChar (c : Char) : Bool := c.isAlpha || c.isDigit || c = '_'

/-- Does the text start with the literal `gorp` followed by a word
boundary (end of text or a non-word character)? -/
def hasGorpHere : List Char → Bool
  | 'g' :: 'o' :: 'r' :: 'p' :: rest =>
    match rest with
    | [] => true
    | c :: _ => !isWordChar c
  | _ => false

/-- Scan for `\bgorp\b` in already lowercased text.  The boolean argument
records whether the previous character was a word character (text start
counts as a boundary). -/
def gorpWordFrom : Bool → List Char → Bool
  | _, [] => false
  | prevWord, c :: rest =>
    (!prevWord && hasGorpHere (c :: rest)) || gorpWordFrom (isWordChar c) rest

/-- JS `String.includes`: does the needle occur contiguously in the text? -/
def containsSeq (needle : List Char) : List Char → Bool
  | [] => needle.isEmpty
  | c :: rest => needle.isPrefixOf (c :: rest) || containsSeq needle rest

/-- `isGorpMentioned`: lowercase the content, look for the wrapped mention
tokens `<@id>` / `<@!id>`, or the case-insensitive whole word `gorp`. -/
def isGorpMentioned (botId : List Char) (msg : Msg) : Bool :=
  let content := msg.content.map Char.toLower
  let botMention := '<' :: '@' :: (botId ++ ['>'])
  let botMentionNick := '<' :: '@' :: '!' :: (botId ++ ['>'])
  containsSeq botMention content || containsSeq botMentionNick content ||
    gorpWordFrom false content

/-- Truthiness of `message.content.trim()`: the text has some
non-whitespace character. -/
def hasText (content : List Char) : Bool := content.any (fun c => !c.isWhitespace)

/-- The channel label used when formatting a message:
`'#' + channel.name` for a named text channel, `DM` otherwise. -/
def channelLabel (msg : Msg) : List Char :=
  if msg.channelName.isEmpty then "DM".data else '#' :: msg.channelName

/-- `(size / (1024*1024)).toFixed(1)`: megabytes with one decimal, modelled
as exact round-half-up on tenths of a megabyte. -/
def toFixed1MB (size : Nat) : List Char :=
  let d := (size * 10 + 524288) / 1048576
  Nat.toDigits 10 (d / 10) ++ '.' :: Nat.toDigits 10 (d % 10)

/-- The `[Images attached: ...]` section listing each `image/*` attachment
with its index, name, content type, size and url. -/
def imageLines (atts : List Attachment) : List Char :=
  let imgs := atts.filter (fun a => "image/".data.isPrefixOf a.contentType)
  if imgs.length = 0 then []
  else
    "\n[Images attached:".data ++
      (imgs.enum.foldl (fun acc p =>
        acc ++ "\n  ".data ++ Nat.toDigits 10 (p.1 + 1) ++ ". ".data ++ p.2.name ++
          " (".data ++ p.2.contentType ++ ", ".data ++ toFixed1MB p.2.size ++
          "MB) - ".data ++ p.2.url) []) ++
      "]".data

/-- `formatMessageWithImages`: header with message id, author and channel,
the text content if non-blank, and the image attachment section. -/
def formatMessageWithImages (msg : Msg) (channelName : List Char) : List Char :=
  "[messageId: ".data ++ msg.id ++ "] ".data ++ msg.username ++ " in ".data ++
    channelName ++ ":".data ++
    (if hasText msg.content then ' ' :: msg.content else []) ++
    (if msg.attachments.length ≠ 0 then imageLines msg.attachments else [])

/-- The external attachment ingestion (`processImageAttachments`), modelled
at its interface: each raw attachment yields one descriptor. -/
def processImageAttachments (atts : List Attachment) : List ImageData :=
  atts.map (fun a => { name := a.name, contentType := a.contentType })

/-- The `PendingMessage` built inside `addPendingMessage` for one message. -/
def pendingOf (msg : Msg) : PendingMessage :=
  { text := formatMessageWithImages msg (channelLabel msg)
  , images := if msg.attachments.length ≠ 0 then processImageAttachments msg.attachments else [] }

/-- `addPendingMessage`: skip blank attachment-free messages; otherwise push
the formatted entry and, when the queue exceeds 50 entries, retain only the
most recent 50 (`slice(-50)`). -/
def addPendingMessage (act : ChannelActivity) (msg : Msg) : ChannelActivity :=
  if !hasText msg.content && msg.attachments.length = 0 then act
  else
    let q := act.pendingMessages ++ [pendingOf msg]
    let q := if q.length > 50 then q.drop (q.length - 50) else q
    { act with pendingMessages := q }

/-- `formatTimeRange`: `Math.floor((now - lastActivity) / 60000)` minutes,
rendered as a phrase. -/
def formatTimeRange (now lastActivity : Int) : List Char :=
  let minutes := (now - lastActivity) / 60000
  if minutes < 1 then "few seconds".data
  else if minutes = 1 then "1 minute".data
  else Nat.toDigits 10 minutes.toNat ++ " minutes".data

/-- The digest header `[Discord Batch Update] N messages in CHANNEL over the
past RANGE:` shared by both flush paths. -/
def batchHeader (count : Nat) (channelName : List Char) (timeRange : List Char) : List Char :=
  "[Discord Batch Update] ".data ++ Nat.toDigits 10 count ++ " messages in ".data ++
    channelName ++ " over the past ".data ++ timeRange ++ ":\n\n".data

/-- Channel label resolved through `client.channels.cache`: the cached name
when the lookup succeeds, `Unknown Channel` otherwise. -/
def cacheChannelLabel : Option (List Char) → List Char
  | some n => '#' :: n
  | none => "Unknown Channel".data

/-- Outcome of one flush: the updated channel record, the updated rate
limiter, and the digest texts actually handed to the downstream sender. -/
structure FlushResult where
  activity : ChannelActivity
  rl : RateLimiter
  sent : List (List Char)
deriving DecidableEq

/-- `sendBatchUpdate` (mention-triggered flush): build the digest from the
queued texts followed by the `--- MENTION ---` separator and the formatted
mention message; consult the rate limiter; if denied, return with the queue
untouched; if the downstream send succeeds, record the send and clear the
queue; if it throws, the catch block leaves the queue untouched. -/
def sendBatchUpdate (act : ChannelActivity) (mentionMsg : Msg) (rl : RateLimiter)
    (now : Int) (cachedName : Option (List Char)) (sendOk : Bool) : FlushResult :=
  let channelName := cacheChannelLabel cachedName
  let summary :=
    batchHeader act.pendingMessages.length channelName (formatTimeRange now act.lastActivity) ++
      List.intercalate ['\n'] (act.pendingMessages.map (fun m => m.text)) ++
      "\n\n--- MENTION ---\n".data ++
      formatMessageWithImages mentionMsg (channelLabel mentionMsg)
  let c := canSendMessage rl now
  if !c.1 then { activity := act, rl := c.2, sent := [] }
  else if sendOk then
    { activity := { act with pendingMessages := [] }
    , rl := recordMessageSent c.2 now
    , sent := [summary] }
  else { activity := act, rl := c.2, sent := [] }

/-- Result of classifying one inbound message. -/
structure ClassifyResult where
  forward : Bool
  activity : ChannelActivity
  rl : RateLimiter
  sent : List (List Char)
deriving DecidableEq

/-- `shouldForwardImmediately`: stamp `lastActivity`; on a mention flush any
backlog and stamp `lastGorpMention`; on the bot's own message stamp
`lastGorpMessage`; otherwise forward while either interaction timestamp is
strictly within the timeout, else enqueue for batching. -/
def shouldForwardImmediately (cfg : TrackerConfig) (botId : List Char)
    (act0 : ChannelActivity) (msg : Msg) (now : Int) (rl : RateLimiter)
    (cachedName : Option (List Char)) (sendOk : Bool) : ClassifyResult :=
  let act := { act0 with lastActivity := now }
  if isGorpMentioned botId msg then
    let fr :=
      if act.pendingMessages.length > 0 then
        sendBatchUpdate act msg rl now cachedName sendOk
      else { activity := act, rl := rl, sent := [] }
    { forward := true
    , activity := { fr.activity with lastGorpMention := now, isActive := true }
    , rl := fr.rl
    , sent := fr.sent }
  else if msg.authorId = botId then
    { forward := true
    , activity := { act with lastGorpMessage := now, isActive := true }
    , rl := rl, sent := [] }
  else
    let withinMention :=
      decide (act.lastGorpMention > 0) &&
        decide (now - act.lastGorpMention < cfg.gorpInteractionTimeout)
    let withinMessage :=
      decide (act.lastGorpMessage > 0) &&
        decide (now - act.lastGorpMessage < cfg.gorpInteractionTimeout)
    if withinMention || withinMessage then
      { forward := true, activity := { act with isActive := true }, rl := rl, sent := [] }
    else
      { forward := false
      , activity := addPendingMessage { act with isActive := false } msg
      , rl := rl, sent := [] }

/-- Fresh record built by `getOrCreateChannelActivity` on first sight of a
channel. -/
def getOrCreateChannelActivity (channelId : List Char) : ChannelActivity :=
  { channelId := channelId
  , lastGorpMention := 0
  , lastGorpMessage := 0
  , lastActivity := 0
  , pendingMessages := []
  , isActive := false }

/-- `createBatchSummary`: `null` when nothing is queued, otherwise the digest
header followed by the queued texts joined by newlines. -/
def createBatchSummary (act : ChannelActivity) (now : Int)
    (cachedName : Option (List Char)) : Option (List Char) :=
  if act.pendingMessages.length = 0 then none
  else
    some (batchHeader act.pendingMessages.length (cacheChannelLabel cachedName)
        (formatTimeRange now act.lastActivity) ++
      List.intercalate ['\n'] (act.pendingMessages.map (fun m => m.text)))

/-- Outcome of one channel's turn inside `processBatchUpdates`.  `attempted`
records whether the loop body reached its send attempt (the rate-limit check
and downstream call), i.e. the channel passed every eligibility test. -/
structure ChannelTickResult where
  activity : ChannelActivity
  rl : RateLimiter
  sent : List (List Char)
  attempted : Bool
deriving DecidableEq

/-- One channel's turn of the scheduled `processBatchUpdates` loop: skip when
the queue is empty, when the channel is active, or when the last activity is
older than the batch interval; otherwise build the summary and attempt the
send, with admission denial or a thrown send leaving the queue untouched. -/
def processChannelTick (cfg : TrackerConfig) (now : Int) (rl : RateLimiter)
    (act : ChannelActivity) (cachedName : Option (List Char)) (sendOk : Bool) :
    ChannelTickResult :=
  if act.pendingMessages.length = 0 then ⟨act, rl, [], false⟩
  else if act.isActive then ⟨act, rl, [], false⟩
  else if now - act.lastActivity > cfg.batchInterval then ⟨act, rl, [], false⟩
  else
    match createBatchSummary act now cachedName with
    | none => ⟨act, rl, [], false⟩
    | some summary =>
      let c := canSendMessage rl now
      if !c.1 then ⟨act, c.2, [], true⟩
      else if sendOk then
        ⟨{ act with pendingMessages := [] }, recordMessageSent c.2 now, [summary], true⟩
      else ⟨act, c.2, [], true⟩

/-- The scheduled `processBatchUpdates` tick over every tracked channel, each
paired with its cached channel-name lookup and the outcome its downstream
send would have; the shared rate limiter is threaded through in iteration
order, and a failing channel never aborts the remaining ones. -/
def processBatchUpdates (cfg : TrackerConfig) (now : Int) (rl : RateLimiter) :
    List (ChannelActivity × Option (List Char) × Bool) →
      List ChannelActivity × RateLimiter × List (List Char)
  | [] => ([], rl, [])
  | (act, cachedName, sendOk) :: rest =>
    let r := processChannelTick cfg now rl act cachedName sendOk
    let t := processBatchUpdates cfg now r.rl rest
    (r.activity :: t.1, t.2.1, r.sent ++ t.2.2)

/-! ## Shared concrete probe inputs -/

/-- A plain text message with no attachments, for concrete scenarios. -/
def mkMsg (mid author content : List Char) : Msg :=
  { id := mid, authorId := author, username := "alice".data,
    channelId := ['c'], channelName := "general".data,
    content := content, attachments := [] }

/-- The i-th of the 55 distinct probe messages of the queue-bound scenario. -/
def floodMsg (i : Nat) : Msg :=
  mkMsg (Nat.toDigits 10 i) ['u'] (Nat.toDigits 10 i)

/-- The 55 probe messages enqueued in the queue-bound scenario. -/
def floodMsgs : List Msg := (List.range 55).map floodMsg

/-- Helper for C5: an enqueue that actually pushes (non-blank text or some
attachment) always leaves at most 50 entries, because the push is followed
by the `slice(-50)` truncation. -/
theorem addPendingMessage_length_le (act : ChannelActivity) (msg : Msg)
    (h : hasText msg.content = true ∨ msg.attachments ≠ []) :
    (addPendingMessage act msg).pendingMessages.length ≤ 50 := by
  unfold addPendingMessage
  have hcond : (!hasText msg.content && decide (msg.attachments.length = 0)) = false := by
    rcases h with h | h
    · simp [h]
    · simp [List.length_eq_zero, h]
  simp only [hcond, Bool.false_eq_true, if_false]
  by_cases hlen : (act.pendingMessages ++ [pendingOf msg]).length > 50
  · rw [if_pos hlen]
    simp only [List.length_drop]
    omega
  · rw [if_neg hlen]
    omega

/-- C5: every actual enqueue leaves the pending queue at no more than 50
entries, and flooding 55 messages into a fresh channel retains exactly the
50 most recent entries in insertion order (the oldest 5 are dropped). -/
theorem c5_pending_queue_bound :
    (∀ (act : ChannelActivity) (msg : Msg),
      hasText msg.content = true ∨ msg.attachments ≠ [] →
        (addPendingMessage act msg).pendingMessages.length ≤ 50) ∧
    (floodMsgs.foldl addPendingMessage (getOrCreateChannelActivity ['c'])).pendingMessages
      = (floodMsgs.map pendingOf).drop 5 ∧
    (floodMsgs.foldl addPendingMessage (getOrCreateChannelActivity ['c'])).pendingMessages.length
      = 50 :=
  ⟨addPendingMessage_length_le, by set_option maxRecDepth 40000 in decide,
   by set_option maxRecDepth 40000 in decide⟩

/-- Witness for C5 at a concrete enqueue. -/
theorem c5_pending_queue_bound_witness :
    (addPendingMessage (getOrCreateChannelActivity ['c']) (floodMsg 0)).pendingMessages.length ≤ 50 :=
  c5_pending_queue_bound.1 _ _ (Or.inl (by decide))

/-- C7: the self-message branch keys on the author's identity, not on the
message content: any non-mention message authored by the tracked identity is
forwarded immediately with `lastGorpMessage` stamped and the channel marked
active, whatever its content. -/
theorem c7_self_branch_author_identity (cfg : TrackerConfig) (botId : List Char)
    (act : ChannelActivity) (msg : Msg) (now : Int) (rl : RateLimiter)
    (cachedName : Option (List Char)) (sendOk : Bool)
    (hm : isGorpMentioned botId msg = false)
    (hauthor : msg.authorId = botId) :
    (shouldForwardImmediately cfg botId act msg now rl cachedName sendOk).forward = true ∧
    (shouldForwardImmediately cfg botId act msg now rl cachedName sendOk).activity.lastGorpMessage = now ∧
    (shouldForwardImmediately cfg botId act msg now rl cachedName sendOk).activity.isActive = true := by
  unfold shouldForwardImmediately
  simp [hm, hauthor]

/-- Witness for C7: the bot observing its own plain text message. -/
theorem c7_self_branch_author_identity_witness :
    (shouldForwardImmediately ⟨300000, 1800000⟩ ['9'] (getOrCreateChannelActivity ['c'])
        (mkMsg ['1'] ['9'] "hello there".data) 42 ⟨[], 3⟩ none true).forward = true ∧
    (shouldForwardImmediately ⟨300000, 1800000⟩ ['9'] (getOrCreateChannelActivity ['c'])
        (mkMsg ['1'] ['9'] "hello there".data) 42 ⟨[], 3⟩ none true).activity.lastGorpMessage = 42 ∧
    (shouldForwardImmediately ⟨300000, 1800000⟩ ['9'] (getOrCreateChannelActivity ['c'])
        (mkMsg ['1'] ['9'] "hello there".data) 42 ⟨[], 3⟩ none true).activity.isActive = true :=
  c7_self_branch_author_identity _ _ _ _ _ _ _ _ (by decide) (by decide)

/-- Helper: for a non-mention, non-self message the classification outcome is
exactly the strict-inequality timeout test on the two interaction stamps. -/
theorem shouldForward_batch_branch (cfg : TrackerConfig) (botId : List Char)
    (act : ChannelActivity) (msg : Msg) (now : Int) (rl : RateLimiter)
    (cachedName : Option (List Char)) (sendOk : Bool)
    (hm : isGorpMentioned botId msg = false)
    (hself : msg.authorId ≠ botId) :
    (shouldForwardImmediately cfg botId act msg now rl cachedName sendOk).forward
      = ((decide (act.lastGorpMention > 0) &&
            decide (now - act.lastGorpMention < cfg.gorpInteractionTimeout)) ||
         (decide (act.lastGorpMessage > 0) &&
            decide (now - act.lastGorpMessage < cfg.gorpInteractionTimeout))) := by
  unfold shouldForwardImmediately
  simp only [hm, Bool.false_eq_true, if_false, hself, if_neg]
  split
  · next h => simp_all
  · next h => simp_all

/-- C4: with the 5-minute timeout, a non-mention non-self message 4m59s after
the interaction stamp is forwarded immediately, one 5m01s after it is
batched, and the boundary at exactly 5m is already batched — the comparison
is strict less-than.  Both the mention stamp and the own-message stamp obey
the same boundary. -/
theorem c4_timeout_boundary_strict (cfg : TrackerConfig) (botId : List Char)
    (msg : Msg) (t0 : Int) (rl : RateLimiter) (cachedName : Option (List Char))
    (sendOk : Bool)
    (htimeout : cfg.gorpInteractionTimeout = 300000)
    (hm : isGorpMentioned botId msg = false)
    (hself : msg.authorId ≠ botId)
    (ht0 : 0 < t0) :
    (∀ act : ChannelActivity, act.lastGorpMention = t0 → act.lastGorpMessage = 0 →
      (shouldForwardImmediately cfg botId act msg (t0 + 299000) rl cachedName sendOk).forward = true ∧
      (shouldForwardImmediately cfg botId act msg (t0 + 300000) rl cachedName sendOk).forward = false ∧
      (shouldForwardImmediately cfg botId act msg (t0 + 301000) rl cachedName sendOk).forward = false) ∧
    (∀ act : ChannelActivity, act.lastGorpMessage = t0 → act.lastGorpMention = 0 →
      (shouldForwardImmediately cfg botId act msg (t0 + 299000) rl cachedName sendOk).forward = true ∧
      (shouldForwardImmediately cfg botId act msg (t0 + 300000) rl cachedName sendOk).forward = false ∧
      (shouldForwardImmediately cfg botId act msg (t0 + 301000) rl cachedName sendOk).forward = false) := by
  constructor <;> intro act ha hb <;>
    refine ⟨?_, ?_, ?_⟩ <;>
    rw [shouldForward_batch_branch cfg botId act msg _ rl cachedName sendOk hm hself] <;>
    simp [ha, hb, htimeout] <;> omega

/-- Witness for C4 at a concrete stamp and message. -/
theorem c4_timeout_boundary_strict_witness :
    (shouldForwardImmediately ⟨300000, 1800000⟩ ['9']
        { getOrCreateChannelActivity ['c'] with lastGorpMention := 1000 }
        (mkMsg ['1'] ['u'] "hello there".data) (1000 + 299000) ⟨[], 3⟩ none true).forward = true ∧
    (shouldForwardImmediately ⟨300000, 1800000⟩ ['9']
        { getOrCreateChannelActivity ['c'] with lastGorpMention := 1000 }
        (mkMsg ['1'] ['u'] "hello there".data) (1000 + 300000) ⟨[], 3⟩ none true).forward = false ∧
    (shouldForwardImmediately ⟨300000, 1800000⟩ ['9']
        { getOrCreateChannelActivity ['c'] with lastGorpMention := 1000 }
        (mkMsg ['1'] ['u'] "hello there".data) (1000 + 301000) ⟨[], 3⟩ none true).forward = false :=
  (c4_timeout_boundary_strict ⟨300000, 1800000⟩ ['9'] (mkMsg ['1'] ['u'] "hello there".data)
      1000 ⟨[], 3⟩ none true (by decide) (by decide) (by decide) (by decide)).1
    { getOrCreateChannelActivity ['c'] with lastGorpMention := 1000 } rfl rfl

/-- C3: the scheduled tick reaches a channel's send attempt exactly when the
queue is non-empty, the channel is not active, and the last activity is
within the batch interval; a channel failing any condition is returned
untouched with nothing sent. -/
theorem c3_scheduled_flush_eligibility (cfg : TrackerConfig) (now : Int)
    (rl : RateLimiter) (act : ChannelActivity) (cachedName : Option (List Char))
    (sendOk : Bool) :
    ((processChannelTick cfg now rl act cachedName sendOk).attempted = true ↔
      (act.pendingMessages ≠ [] ∧ act.isActive = false ∧
        now - act.lastActivity ≤ cfg.batchInterval)) ∧
    ((processChannelTick cfg now rl act cachedName sendOk).attempted = false →
      processChannelTick cfg now rl act cachedName sendOk
        = ⟨act, rl, [], false⟩) := by
  unfold processChannelTick createBatchSummary
  by_cases h1 : act.pendingMessages.length = 0
  · rw [if_pos h1]
    have hnil : act.pendingMessages = [] := List.length_eq_zero.mp h1
    refine ⟨⟨fun h => absurd h (by simp), fun h => absurd hnil h.1⟩, fun _ => rfl⟩
  · rw [if_neg h1]
    by_cases h2 : act.isActive = true
    · rw [if_pos h2]
      refine ⟨⟨fun h => absurd h (by simp), fun h => by simp [h2] at h⟩, fun _ => rfl⟩
    · rw [if_neg h2]
      by_cases h3 : now - act.lastActivity > cfg.batchInterval
      · rw [if_pos h3]
        refine ⟨⟨fun h => absurd h (by simp), fun h => absurd h.2.2 (by omega)⟩, fun _ => rfl⟩
      · rw [if_neg h3, if_neg h1]
        have hne : act.pendingMessages ≠ [] := fun hh => h1 (by simp [hh])
        have hia : act.isActive = false := by
          cases hact : act.isActive
          · rfl
          · exact absurd hact h2
        cases hc : (canSendMessage rl now).1 <;> cases sendOk <;> simp_all

/-- Witness for C3: an eligible channel reaches its send attempt. -/
theorem c3_scheduled_flush_eligibility_witness :
    (processChannelTick ⟨300000, 1800000⟩ 1000 ⟨[], 3⟩
        { getOrCreateChannelActivity ['c'] with
            lastActivity := 1000
          , pendingMessages := [{ text := ['m'], images := [] }] }
        none true).attempted = true :=
  ((c3_scheduled_flush_eligibility ⟨300000, 1800000⟩ 1000 ⟨[], 3⟩
      { getOrCreateChannelActivity ['c'] with
          lastActivity := 1000
        , pendingMessages := [{ text := ['m'], images := [] }] }
      none true).1).mpr (by decide)

/-- C1: a mention-classified message is forwarded (true) and, provided the
rate limiter admits the flush and the downstream send succeeds, any backlog
is flushed first: the pending queue ends empty and the digest that went out
lists the previously queued entries before the mention's own formatted line
after the `--- MENTION ---` separator. -/
theorem c1_mention_flushes_backlog (cfg : TrackerConfig) (botId : List Char)
    (act0 : ChannelActivity) (msg : Msg) (now : Int) (rl : RateLimiter)
    (cachedName : Option (List Char))
    (hm : isGorpMentioned botId msg = true)
    (hcan : (canSendMessage rl now).1 = true) :
    (shouldForwardImmediately cfg botId act0 msg now rl cachedName true).forward = true ∧
    (shouldForwardImmediately cfg botId act0 msg now rl cachedName true).activity.pendingMessages = [] ∧
    (act0.pendingMessages ≠ [] →
      (shouldForwardImmediately cfg botId act0 msg now rl cachedName true).sent
        = [batchHeader act0.pendingMessages.length (cacheChannelLabel cachedName)
              (formatTimeRange now now) ++
            List.intercalate ['\n'] (act0.pendingMessages.map (fun m => m.text)) ++
            "\n\n--- MENTION ---\n".data ++
            formatMessageWithImages msg (channelLabel msg)]) := by
  unfold shouldForwardImmediately
  rw [if_pos hm]
  by_cases hq : act0.pendingMessages = []
  · simp [hq]
  · have hlen : ({ act0 with lastActivity := now } : ChannelActivity).pendingMessages.length > 0 := by
      simpa using List.length_pos.mpr hq
    rw [if_pos hlen]
    unfold sendBatchUpdate
    simp [hcan, hq]

/-- Witness for C1: a `gorp` mention on a channel with one queued entry and
an admitting limiter. -/
theorem c1_mention_flushes_backlog_witness :
    (shouldForwardImmediately ⟨300000, 1800000⟩ ['9']
        { getOrCreateChannelActivity ['c'] with
            pendingMessages := [{ text := ['m'], images := [] }] }
        (mkMsg ['1'] ['u'] "hey gorp".data) 5 ⟨[], 3⟩ none true).forward = true ∧
    (shouldForwardImmediately ⟨300000, 1800000⟩ ['9']
        { getOrCreateChannelActivity ['c'] with
            pendingMessages := [{ text := ['m'], images := [] }] }
        (mkMsg ['1'] ['u'] "hey gorp".data) 5 ⟨[], 3⟩ none true).activity.pendingMessages = [] ∧
    (shouldForwardImmediately ⟨300000, 1800000⟩ ['9']
        { getOrCreateChannelActivity ['c'] with
            pendingMessages := [{ text := ['m'], images := [] }] }
        (mkMsg ['1'] ['u'] "hey gorp".data) 5 ⟨[], 3⟩ none true).sent
      = [batchHeader 1 (cacheChannelLabel none) (formatTimeRange 5 5) ++
          List.intercalate ['\n'] [['m']] ++
          "\n\n--- MENTION ---\n".data ++
          formatMessageWithImages (mkMsg ['1'] ['u'] "hey gorp".data)
            (channelLabel (mkMsg ['1'] ['u'] "hey gorp".data))] := by
  have h := c1_mention_flushes_backlog ⟨300000, 1800000⟩ ['9']
    { getOrCreateChannelActivity ['c'] with
        pendingMessages := [{ text := ['m'], images := [] }] }
    (mkMsg ['1'] ['u'] "hey gorp".data) 5 ⟨[], 3⟩ none (by decide) (by decide)
  exact ⟨h.1, h.2.1, h.2.2 (by decide)⟩

/-- C6: admission denial or a thrown downstream send leaves the channel
record — in particular its queue, entries and order — exactly as it was, on
both the mention-triggered and the scheduled flush path, with nothing sent;
and a failing channel does not stop the scheduled loop: in a two-channel
tick whose first send throws, the first queue survives intact while the
second channel still flushes. -/
theorem c6_failure_leaves_queue :
    (∀ (act : ChannelActivity) (msg : Msg) (now : Int) (rl : RateLimiter)
        (cachedName : Option (List Char)) (sendOk : Bool),
      (canSendMessage rl now).1 = false ∨ sendOk = false →
        (sendBatchUpdate act msg rl now cachedName sendOk).activity = act ∧
        (sendBatchUpdate act msg rl now cachedName sendOk).sent = []) ∧
    (∀ (cfg : TrackerConfig) (now : Int) (rl : RateLimiter) (act : ChannelActivity)
        (cachedName : Option (List Char)) (sendOk : Bool),
      (canSendMessage rl now).1 = false ∨ sendOk = false →
        (processChannelTick cfg now rl act cachedName sendOk).activity = act ∧
        (processChannelTick cfg now rl act cachedName sendOk).sent = []) ∧
    ((processBatchUpdates ⟨300000, 1800000⟩ 1000 ⟨[], 10⟩
        [({ getOrCreateChannelActivity ['a'] with
              lastActivity := 1000
            , pendingMessages := [{ text := "m1".data, images := [] }] },
          some "alpha".data, false),
         ({ getOrCreateChannelActivity ['b'] with
              lastActivity := 1000
            , pendingMessages := [{ text := "m2".data, images := [] }] },
          some "beta".data, true)]).1.map (fun a => a.pendingMessages)
        = [[{ text := "m1".data, images := [] }], []] ∧
      (processBatchUpdates ⟨300000, 1800000⟩ 1000 ⟨[], 10⟩
        [({ getOrCreateChannelActivity ['a'] with
              lastActivity := 1000
            , pendingMessages := [{ text := "m1".data, images := [] }] },
          some "alpha".data, false),
         ({ getOrCreateChannelActivity ['b'] with
              lastActivity := 1000
            , pendingMessages := [{ text := "m2".data, images := [] }] },
          some "beta".data, true)]).2.2.length = 1) := by
  refine ⟨?_, ?_, by decide⟩
  · intro act msg now rl cachedName sendOk h
    unfold sendBatchUpdate
    rcases h with h | h
    · simp [h]
    · subst h
      cases hc : (canSendMessage rl now).1 <;> simp [hc]
  · intro cfg now rl act cachedName sendOk h
    unfold processChannelTick
    by_cases h1 : act.pendingMessages.length = 0
    · rw [if_pos h1]; exact ⟨rfl, rfl⟩
    · rw [if_neg h1]
      by_cases h2 : act.isActive = true
      · rw [if_pos h2]; exact ⟨rfl, rfl⟩
      · rw [if_neg h2]
        by_cases h3 : now - act.lastActivity > cfg.batchInterval
        · rw [if_pos h3]; exact ⟨rfl, rfl⟩
        · rw [if_neg h3]
          unfold createBatchSummary
          rw [if_neg h1]
          rcases h with h | h
          · simp [h]
          · subst h
            cases hc : (canSendMessage rl now).1 <;> simp [hc]

/-- Witness for C6: a denied mention-triggered flush keeps the queue. -/
theorem c6_failure_leaves_queue_witness :
    (sendBatchUpdate
        { getOrCreateChannelActivity ['c'] with
            pendingMessages := [{ text := ['m'], images := [] }] }
        (mkMsg ['1'] ['u'] "hey gorp".data) ⟨[0], 1⟩ 5 none true).activity
      = { getOrCreateChannelActivity ['c'] with
            pendingMessages := [{ text := ['m'], images := [] }] } ∧
    (sendBatchUpdate
        { getOrCreateChannelActivity ['c'] with
            pendingMessages := [{ text := ['m'], images := [] }] }
        (mkMsg ['1'] ['u'] "hey gorp".data) ⟨[0], 1⟩ 5 none true).sent = [] :=
  c6_failure_leaves_queue.1
    { getOrCreateChannelActivity ['c'] with
        pendingMessages := [{ text := ['m'], images := [] }] }
    (mkMsg ['1'] ['u'] "hey gorp".data) 5 ⟨[0], 1⟩ none true (Or.inl (by decide))

/-- Helper: the mention-triggered flush only ever touches the pending queue;
every other field of the channel record survives unchanged. -/
theorem sendBatchUpdate_preserves_fields (act : ChannelActivity) (msg : Msg)
    (rl : RateLimiter) (now : Int) (cachedName : Option (List Char)) (sendOk : Bool) :
    (sendBatchUpdate act msg rl now cachedName sendOk).activity.channelId = act.channelId ∧
    (sendBatchUpdate act msg rl now cachedName sendOk).activity.lastGorpMention = act.lastGorpMention ∧
    (sendBatchUpdate act msg rl now cachedName sendOk).activity.lastGorpMessage = act.lastGorpMessage ∧
    (sendBatchUpdate act msg rl now cachedName sendOk).activity.lastActivity = act.lastActivity ∧
    (sendBatchUpdate act msg rl now cachedName sendOk).activity.isActive = act.isActive := by
  unfold sendBatchUpdate
  cases hc : (canSendMessage rl now).1 <;> cases sendOk <;> simp [hc]

/-- Helper: a denied flush sends nothing. -/
theorem sendBatchUpdate_denied_sends_nothing (act : ChannelActivity) (msg : Msg)
    (rl : RateLimiter) (now : Int) (cachedName : Option (List Char)) (sendOk : Bool)
    (h : (canSendMessage rl now).1 = false) :
    (sendBatchUpdate act msg rl now cachedName sendOk).sent = [] := by
  unfold sendBatchUpdate
  simp [h]

/-- Helper: `addPendingMessage` is a no-op on a blank, attachment-free
message. -/
theorem addPendingMessage_skip (act : ChannelActivity) (msg : Msg)
    (hws : hasText msg.content = false) (hatt : msg.attachments = []) :
    addPendingMessage act msg = act := by
  simp [addPendingMessage, hws, hatt]

/-- C9: a whitespace-only message without attachments is never enqueued —
when it is classified as a batch candidate the queue is exactly what it was —
yet it still stamps `lastActivity = now` on every path, and it still
participates in self detection: authored by the tracked identity it is
forwarded with `lastGorpMessage` stamped. -/
theorem c9_blank_message_frame (cfg : TrackerConfig) (botId : List Char)
    (act : ChannelActivity) (msg : Msg) (now : Int) (rl : RateLimiter)
    (cachedName : Option (List Char)) (sendOk : Bool)
    (hws : hasText msg.content = false)
    (hatt : msg.attachments = []) :
    ((shouldForwardImmediately cfg botId act msg now rl cachedName sendOk).forward = false →
      (shouldForwardImmediately cfg botId act msg now rl cachedName sendOk).activity.pendingMessages
        = act.pendingMessages) ∧
    (shouldForwardImmediately cfg botId act msg now rl cachedName sendOk).activity.lastActivity = now ∧
    (msg.authorId = botId → isGorpMentioned botId msg = false →
      (shouldForwardImmediately cfg botId act msg now rl cachedName sendOk).forward = true ∧
      (shouldForwardImmediately cfg botId act msg now rl cachedName sendOk).activity.lastGorpMessage
        = now) := by
  unfold shouldForwardImmediately
  by_cases hm : isGorpMentioned botId msg = true
  · rw [if_pos hm]
    by_cases hq : ({ act with lastActivity := now } : ChannelActivity).pendingMessages.length > 0
    · rw [if_pos hq]
      have hfields := sendBatchUpdate_preserves_fields { act with lastActivity := now }
        msg rl now cachedName sendOk
      refine ⟨fun habs => absurd habs (by simp), ?_, fun _ hmm => absurd hm (by simp [hmm])⟩
      simpa using hfields.2.2.2.1
    · rw [if_neg hq]
      exact ⟨fun habs => absurd habs (by simp), rfl, fun _ hmm => absurd hm (by simp [hmm])⟩
  · rw [if_neg hm]
    by_cases hauthor : msg.authorId = botId
    · rw [if_pos hauthor]
      exact ⟨fun habs => absurd habs (by simp), rfl, fun _ _ => ⟨rfl, rfl⟩⟩
    · rw [if_neg hauthor]
      dsimp only
      split
      · exact ⟨fun habs => absurd habs (by simp), rfl, fun ha _ => absurd ha hauthor⟩
      · rw [addPendingMessage_skip _ _ hws hatt]
        exact ⟨fun _ => rfl, rfl, fun ha _ => absurd ha hauthor⟩

/-- Witness for C9: a whitespace-only message on a dormant channel. -/
theorem c9_blank_message_frame_witness :
    ((shouldForwardImmediately ⟨300000, 1800000⟩ ['9'] (getOrCreateChannelActivity ['c'])
        (mkMsg ['1'] ['u'] "   ".data) 42 ⟨[], 3⟩ none true).forward = false →
      (shouldForwardImmediately ⟨300000, 1800000⟩ ['9'] (getOrCreateChannelActivity ['c'])
        (mkMsg ['1'] ['u'] "   ".data) 42 ⟨[], 3⟩ none true).activity.pendingMessages
        = (getOrCreateChannelActivity ['c']).pendingMessages) ∧
    (shouldForwardImmediately ⟨300000, 1800000⟩ ['9'] (getOrCreateChannelActivity ['c'])
        (mkMsg ['1'] ['u'] "   ".data) 42 ⟨[], 3⟩ none true).activity.lastActivity = 42 ∧
    ((mkMsg ['1'] ['u'] "   ".data).authorId = ['9'] →
      isGorpMentioned ['9'] (mkMsg ['1'] ['u'] "   ".data) = false →
      (shouldForwardImmediately ⟨300000, 1800000⟩ ['9'] (getOrCreateChannelActivity ['c'])
          (mkMsg ['1'] ['u'] "   ".data) 42 ⟨[], 3⟩ none true).forward = true ∧
      (shouldForwardImmediately ⟨300000, 1800000⟩ ['9'] (getOrCreateChannelActivity ['c'])
          (mkMsg ['1'] ['u'] "   ".data) 42 ⟨[], 3⟩ none true).activity.lastGorpMessage = 42) :=
  c9_blank_message_frame ⟨300000, 1800000⟩ ['9'] (getOrCreateChannelActivity ['c'])
    (mkMsg ['1'] ['u'] "   ".data) 42 ⟨[], 3⟩ none true (by decide) (by decide)

/-- Helper: on a mention the five classification observables are functions
of the channel state and clock alone, whatever the rate limiter holds. -/
theorem shouldForward_mention_fields (cfg : TrackerConfig) (botId : List Char)
    (act : ChannelActivity) (msg : Msg) (now : Int) (rl : RateLimiter)
    (cachedName : Option (List Char)) (sendOk : Bool)
    (hm : isGorpMentioned botId msg = true) :
    (shouldForwardImmediately cfg botId act msg now rl cachedName sendOk).forward = true ∧
    (shouldForwardImmediately cfg botId act msg now rl cachedName sendOk).activity.lastGorpMention = now ∧
    (shouldForwardImmediately cfg botId act msg now rl cachedName sendOk).activity.lastGorpMessage
      = act.lastGorpMessage ∧
    (shouldForwardImmediately cfg botId act msg now rl cachedName sendOk).activity.lastActivity = now ∧
    (shouldForwardImmediately cfg botId act msg now rl cachedName sendOk).activity.isActive = true := by
  unfold shouldForwardImmediately
  rw [if_pos hm]
  by_cases hq : ({ act with lastActivity := now } : ChannelActivity).pendingMessages.length > 0
  · rw [if_pos hq]
    have f := sendBatchUpdate_preserves_fields { act with lastActivity := now }
      msg rl now cachedName sendOk
    exact ⟨rfl, rfl, by simpa using f.2.2.1, by simpa using f.2.2.2.1, rfl⟩
  · rw [if_neg hq]
    exact ⟨rfl, rfl, rfl, rfl, rfl⟩

/-- Helper: on a non-mention message the whole run is a rate-limiter-free
expression (the limiter is merely passed through). -/
theorem shouldForward_nonmention_run (cfg : TrackerConfig) (botId : List Char)
    (act : ChannelActivity) (msg : Msg) (now : Int) (rl : RateLimiter)
    (cachedName : Option (List Char)) (sendOk : Bool)
    (hm : isGorpMentioned botId msg = false) :
    shouldForwardImmediately cfg botId act msg now rl cachedName sendOk
      = (if msg.authorId = botId then
          { forward := true
          , activity := { act with lastActivity := now, lastGorpMessage := now, isActive := true }
          , rl := rl, sent := [] }
        else if (decide (act.lastGorpMention > 0) &&
              decide (now - act.lastGorpMention < cfg.gorpInteractionTimeout) ||
            decide (act.lastGorpMessage > 0) &&
              decide (now - act.lastGorpMessage < cfg.gorpInteractionTimeout)) = true then
          { forward := true
          , activity := { act with lastActivity := now, isActive := true }
          , rl := rl, sent := [] }
        else
          { forward := false
          , activity := addPendingMessage { act with lastActivity := now, isActive := false } msg
          , rl := rl, sent := [] }) := by
  unfold shouldForwardImmediately
  rw [if_neg (by simp [hm])]

/-- C10: the classification is independent of the rate limiter.  Two runs of
`shouldForwardImmediately` on the same message and channel state that differ
only in the rate limiter state return the same boolean and agree on
`lastGorpMention`, `lastGorpMessage`, `lastActivity` and `isActive`; a
denied limiter suppresses only the outbound send of the flush. -/
theorem c10_classification_ignores_rate_limiter (cfg : TrackerConfig) (botId : List Char)
    (act : ChannelActivity) (msg : Msg) (now : Int) (cachedName : Option (List Char))
    (sendOk : Bool) (rl1 rl2 : RateLimiter) :
    (shouldForwardImmediately cfg botId act msg now rl1 cachedName sendOk).forward
      = (shouldForwardImmediately cfg botId act msg now rl2 cachedName sendOk).forward ∧
    (shouldForwardImmediately cfg botId act msg now rl1 cachedName sendOk).activity.lastGorpMention
      = (shouldForwardImmediately cfg botId act msg now rl2 cachedName sendOk).activity.lastGorpMention ∧
    (shouldForwardImmediately cfg botId act msg now rl1 cachedName sendOk).activity.lastGorpMessage
      = (shouldForwardImmediately cfg botId act msg now rl2 cachedName sendOk).activity.lastGorpMessage ∧
    (shouldForwardImmediately cfg botId act msg now rl1 cachedName sendOk).activity.lastActivity
      = (shouldForwardImmediately cfg botId act msg now rl2 cachedName sendOk).activity.lastActivity ∧
    (shouldForwardImmediately cfg botId act msg now rl1 cachedName sendOk).activity.isActive
      = (shouldForwardImmediately cfg botId act msg now rl2 cachedName sendOk).activity.isActive ∧
    ((canSendMessage rl1 now).1 = false →
      (shouldForwardImmediately cfg botId act msg now rl1 cachedName sendOk).sent = []) := by
  by_cases hm : isGorpMentioned botId msg = true
  · have f1 := shouldForward_mention_fields cfg botId act msg now rl1 cachedName sendOk hm
    have f2 := shouldForward_mention_fields cfg botId act msg now rl2 cachedName sendOk hm
    refine ⟨f1.1.trans f2.1.symm, f1.2.1.trans f2.2.1.symm, f1.2.2.1.trans f2.2.2.1.symm,
      f1.2.2.2.1.trans f2.2.2.2.1.symm, f1.2.2.2.2.trans f2.2.2.2.2.symm, ?_⟩
    intro h
    unfold shouldForwardImmediately
    rw [if_pos hm]
    by_cases hq : ({ act with lastActivity := now } : ChannelActivity).pendingMessages.length > 0
    · rw [if_pos hq]
      simpa using sendBatchUpdate_denied_sends_nothing { act with lastActivity := now }
        msg rl1 now cachedName sendOk h
    · rw [if_neg hq]
  · have hm' : isGorpMentioned botId msg = false := by simpa using hm
    rw [shouldForward_nonmention_run cfg botId act msg now rl1 cachedName sendOk hm',
      shouldForward_nonmention_run cfg botId act msg now rl2 cachedName sendOk hm']
    by_cases hauthor : msg.authorId = botId
    · simp [if_pos hauthor]
    · simp only [if_neg hauthor]
      by_cases hcond : (0 < act.lastGorpMention ∧
            now - act.lastGorpMention < cfg.gorpInteractionTimeout) ∨
          (0 < act.lastGorpMessage ∧ now - act.lastGorpMessage < cfg.gorpInteractionTimeout)
      · simp [hcond]
      · simp [hcond]

/-- Witness for C10: a quota-exhausted and an empty limiter classify a
mention identically, and the exhausted run sends nothing. -/
theorem c10_classification_ignores_rate_limiter_witness :
    (shouldForwardImmediately ⟨300000, 1800000⟩ ['9']
        { getOrCreateChannelActivity ['c'] with
            pendingMessages := [{ text := ['m'], images := [] }] }
        (mkMsg ['1'] ['u'] "hey gorp".data) 5 ⟨[0], 1⟩ none true).forward
      = (shouldForwardImmediately ⟨300000, 1800000⟩ ['9']
        { getOrCreateChannelActivity ['c'] with
            pendingMessages := [{ text := ['m'], images := [] }] }
        (mkMsg ['1'] ['u'] "hey gorp".data) 5 ⟨[], 1⟩ none true).forward ∧
    (shouldForwardImmediately ⟨300000, 1800000⟩ ['9']
        { getOrCreateChannelActivity ['c'] with
            pendingMessages := [{ text := ['m'], images := [] }] }
        (mkMsg ['1'] ['u'] "hey gorp".data) 5 ⟨[0], 1⟩ none true).sent = [] :=
  have h := c10_classification_ignores_rate_limiter ⟨300000, 1800000⟩ ['9']
    { getOrCreateChannelActivity ['c'] with
        pendingMessages := [{ text := ['m'], images := [] }] }
    (mkMsg ['1'] ['u'] "hey gorp".data) 5 none true ⟨[0], 1⟩ ⟨[], 1⟩
  ⟨h.1, h.2.2.2.2.2 (by decide)⟩

/-- C8: with chronologically recorded timestamps, `getStatus` reports
`remainingMessages = max(0, cap - count of timestamps inside the trailing
hour)`; its reset time is "now" with nothing retained and otherwise the
oldest retained timestamp plus the window (it belongs to the retained
offsets and is least among them); and `getTimeUntilReset` is the minute
count to that reset time, ceil-rounded and floored at zero. -/
theorem c8_status_reset_formulas (rl : RateLimiter) (now : Int)
    (hsorted : rl.messageTimestamps.Pairwise (fun a b => a ≤ b)) :
    (getStatus rl now).1.remainingMessages
      = max 0 ((rl.maxMessagesPerHour : Int)
          - (rl.messageTimestamps.countP (fun t => decide (now - t < windowMs)) : Int)) ∧
    (purgeOld now rl.messageTimestamps = [] → (getStatus rl now).1.resetTime = now) ∧
    (∀ t ∈ purgeOld now rl.messageTimestamps, (getStatus rl now).1.resetTime ≤ t + windowMs) ∧
    (purgeOld now rl.messageTimestamps ≠ [] →
      (getStatus rl now).1.resetTime ∈ (purgeOld now rl.messageTimestamps).map (fun t => t + windowMs)) ∧
    getTimeUntilReset rl now
      = max 0 (((getStatus rl now).1.resetTime - now + 59999) / 60000) := by
  have hp : (purgeOld now rl.messageTimestamps).Pairwise (fun a b => a ≤ b) :=
    hsorted.sublist (List.filter_sublist _)
  refine ⟨?_, ?_, ?_, ?_, ?_⟩
  · simp [getStatus, purgeOld, List.countP_eq_length_filter]
  · intro hnil
    simp [getStatus, show purgeOld now rl.messageTimestamps = [] from hnil]
  · intro t ht
    rcases hts : purgeOld now rl.messageTimestamps with _ | ⟨a, rest⟩
    · rw [hts] at ht
      cases ht
    · rw [hts] at ht hp
      have hres : (getStatus rl now).1.resetTime = a + windowMs := by
        simp [getStatus, show purgeOld now rl.messageTimestamps = a :: rest from hts]
      rw [hres]
      rcases List.mem_cons.mp ht with h | h
      · omega
      · have := (List.pairwise_cons.mp hp).1 t h
        omega
  · intro hne
    rcases hts : purgeOld now rl.messageTimestamps with _ | ⟨a, rest⟩
    · exact absurd hts hne
    · have hres : (getStatus rl now).1.resetTime = a + windowMs := by
        simp [getStatus, show purgeOld now rl.messageTimestamps = a :: rest from hts]
      rw [hres]
      exact List.mem_map.mpr ⟨a, List.mem_cons_self a rest, rfl⟩
  · unfold getTimeUntilReset
    dsimp only
    omega

/-- Witness for C8 on a concrete sorted limiter state. -/
theorem c8_status_reset_formulas_witness :
    ((getStatus ⟨[10, 20], 5⟩ 30).1.remainingMessages
      = max 0 (((5 : Nat) : Int)
          - (([10, 20] : List Int).countP (fun t => decide ((30 : Int) - t < windowMs)) : Int)) ∧
    (purgeOld 30 [10, 20] = [] → (getStatus ⟨[10, 20], 5⟩ 30).1.resetTime = 30) ∧
    (∀ t ∈ purgeOld 30 [10, 20], (getStatus ⟨[10, 20], 5⟩ 30).1.resetTime ≤ t + windowMs) ∧
    (purgeOld 30 [10, 20] ≠ [] →
      (getStatus ⟨[10, 20], 5⟩ 30).1.resetTime ∈ (purgeOld 30 [10, 20]).map (fun t => t + windowMs)) ∧
    getTimeUntilReset ⟨[10, 20], 5⟩ 30
      = max 0 (((getStatus ⟨[10, 20], 5⟩ 30).1.resetTime - 30 + 59999) / 60000)) :=
  c8_status_reset_formulas ⟨[10, 20], 5⟩ 30 (by decide)

end Gorp
